import Mathlib

/-!
Verification of the arduino-cli MCP server (`src/main.py`) against its
natural-language specification.  The Python code is shallowly embedded:
pure fragments become Lean functions, the mutable caches become explicit
state records, and the external effects (the child process, the filesystem,
Python's string `hash`, the regular-expression search) become oracle
parameters, so that every definition stays executable.
-/

namespace ArduinoCliMcp

/-- Does the character list `l` start with the character list `pat`?
Structural recursion, so it evaluates inside the kernel. -/
def charsStart (pat l : List Char) : Bool :=
  match pat, l with
  | [], _ => true
  | _ :: _, [] => false
  | p :: ps, c :: cs => p == c && charsStart ps cs

/-- Does the character list `l` contain `pat` as a contiguous sublist? -/
def charsHasSub (pat : List Char) (l : List Char) : Bool :=
  match l with
  | [] => charsStart pat []
  | _ :: cs => charsStart pat l || charsHasSub pat cs

/-- Substring test mirroring the Python `in` operator on strings. -/
def strContains (s pat : String) : Bool :=
  charsHasSub pat.data s.data

/-- Python `str.startswith`. -/
def strStarts (s pat : String) : Bool :=
  charsStart pat.data s.data

/-- Python `str.lower` for the ASCII texts handled here. -/
def strLower (s : String) : String :=
  ⟨s.data.map Char.toLower⟩

/-- Split a character list at every slash (helper for the path functions). -/
def splitOnSlash : List Char → List (List Char)
  | [] => [[]]
  | c :: cs =>
    match splitOnSlash cs with
    | [] => [[]]
    | g :: gs => if c == '/' then [] :: g :: gs else (c :: g) :: gs

/-- The slash-separated components of a path. -/
def pathParts (p : String) : List String :=
  (splitOnSlash p.data).map (fun l => ⟨l⟩)

/-- Rejoin path components with slashes. -/
def joinWithSlash : List String → String
  | [] => ""
  | [a] => a
  | a :: b :: rest => a ++ "/" ++ joinWithSlash (b :: rest)

/-- POSIX `os.path.join` for a relative second component, as used throughout
`main.py` on absolute working-directory paths. -/
def pathJoin (a b : String) : String :=
  if a == "" then b
  else if (a.data.getLastD ' ') == '/' then a ++ b
  else a ++ "/" ++ b

/-- POSIX `os.path.dirname` for the normalized slash-separated paths used
here: everything before the final slash. -/
def dirname (p : String) : String :=
  joinWithSlash (pathParts p).dropLast

/-- POSIX `os.path.basename`: the component after the final slash. -/
def basename (p : String) : String :=
  (pathParts p).getLastD ""

/-- Result record of a command-level operation (Python model
`ArduinoCommandResult`, lines 16-20). -/
structure ArduinoCommandResult where
  command : String
  success : Bool
  output : String
  error : String := ""
deriving DecidableEq

/-- Result record of `compile_sketch` (Python model `CompileResult`,
lines 27-33). -/
structure CompileResult where
  sketch : String
  success : Bool
  output : String
  error : String := ""
  binary_path : String := ""
  error_code : Int := 0
deriving DecidableEq

/-- State of the server's result cache: the in-memory dictionary
`command_results` keyed by the command string (line 75), and the durable
per-key JSON files under `output_dir`, keyed by Python's `hash(command)`
(lines 94, 105).  Both stores are association lists in which the most recent
binding for a key is found first, matching dictionary and file overwrite
semantics; the JSON round trip of the record through `model_dump` and the
model constructor is modelled as storing the record itself. -/
structure CacheState where
  command_results : List (String × ArduinoCommandResult)
  files : List (Int × ArduinoCommandResult)

/-- Lines 88-96, `save_command_result`: store the result in the in-memory
dictionary and also write the durable record keyed by `hash(command)`; the
Python string hash is the model parameter `pyhash`. -/
def save_command_result (pyhash : String → Int) (s : CacheState) (command : String)
    (result : ArduinoCommandResult) : CacheState :=
  { command_results := (command, result) :: s.command_results,
    files := (pyhash command, result) :: s.files }

/-- Lines 98-114, `get_command_result`: look the command up in the in-memory
dictionary first, then fall back to the durable record keyed by
`hash(command)`, returning `none` when neither store has it. -/
def get_command_result (pyhash : String → Int) (s : CacheState) (command : String) :
    Option ArduinoCommandResult :=
  match List.lookup command s.command_results with
  | some r => some r
  | none => List.lookup (pyhash command) s.files

/-- Process-restart simulation used by the specification: the in-memory
dictionary is lost while the durable files survive. -/
def clear_memory (s : CacheState) : CacheState :=
  { command_results := [], files := s.files }

/-- Lines 122-127: the sentinel record returned when a command has no stored
result. -/
def not_executed_result (command : String) : ArduinoCommandResult :=
  { command := "arduino-cli " ++ command, success := false, output := "",
    error := "Command not yet executed. Please execute the command in terminal first, then use store_command_result tool to store the result." }

/-- Lines 116-127, `execute_command`: return the stored result when present,
else the sentinel; the external tool is never invoked (the definition takes
no process runner and is total). -/
def execute_command (pyhash : String → Int) (s : CacheState) (command : String) :
    ArduinoCommandResult :=
  match get_command_result pyhash s command with
  | some r => r
  | none => not_executed_result command

/-- Claim C5: for every command key and result, a save followed by a get on
the same key with no intervening save returns the result that was saved, and
a later save for the same key overwrites the earlier one (last write wins). -/
theorem save_get_roundtrip (pyhash : String → Int) (s : CacheState) (k : String)
    (r r1 r2 : ArduinoCommandResult) :
    get_command_result pyhash (save_command_result pyhash s k r) k = some r
    ∧ get_command_result pyhash
        (save_command_result pyhash (save_command_result pyhash s k r1) k r2) k
        = some r2 := by
  constructor <;> simp [get_command_result, save_command_result, List.lookup]

/-- Claim C6: a previously saved result is still returned after the in-memory
mapping is cleared while the durable per-key storage is preserved, via the
fallback read of the durable record. -/
theorem get_after_restart (pyhash : String → Int) (s : CacheState) (k : String)
    (r : ArduinoCommandResult) :
    get_command_result pyhash (clear_memory (save_command_result pyhash s k r)) k
      = some r := by
  simp [get_command_result, save_command_result, clear_memory, List.lookup]

/-- Claim C7: for a key absent from both the in-memory mapping and the durable
store, `execute_command` returns (without throwing and without invoking the
external tool, which the definition cannot do) the sentinel failure record
whose text instructs the caller to execute and store the command out of band;
for a key present in the in-memory mapping it returns that record, and for a
key present only in the durable store it returns the durable record. -/
theorem execute_command_contract (pyhash : String → Int) (s : CacheState) (k : String) :
    (List.lookup k s.command_results = none → List.lookup (pyhash k) s.files = none →
      execute_command pyhash s k = not_executed_result k)
    ∧ (∀ r, List.lookup k s.command_results = some r → execute_command pyhash s k = r)
    ∧ (∀ r, List.lookup k s.command_results = none →
        List.lookup (pyhash k) s.files = some r → execute_command pyhash s k = r) := by
  refine ⟨?_, ?_, ?_⟩
  · intro h1 h2
    unfold execute_command get_command_result
    rw [h1, h2]
  · intro r h1
    unfold execute_command get_command_result
    rw [h1]
  · intro r h1 h2
    unfold execute_command get_command_result
    rw [h1, h2]

/-- Concrete instantiation of `execute_command_contract`: on the empty cache,
`execute_command` returns the sentinel. -/
theorem execute_command_contract_witness :
    execute_command (fun _ => 0) ⟨[], []⟩ "board list" = not_executed_result "board list" :=
  (execute_command_contract (fun _ => 0) ⟨[], []⟩ "board list").1 rfl rfl

/-- Completed child process: exit code and captured stdout and stderr, the
fields of the `subprocess.run` result used on lines 211-241. -/
structure ProcResult where
  returncode : Int
  stdout : String
  stderr : String
deriving DecidableEq

/-- Outcome of one `subprocess.run` call: either a completed process, or a
raised launch exception carrying its message text. -/
inductive RunOutcome where
  | ok (r : ProcResult)
  | exn (msg : String)
deriving DecidableEq

/-- One iteration of the retry loop, as recorded for specification purposes:
either the child process completed, or the launch raised.  Each entry keeps
the command string that iteration ran with. -/
inductive Attempt where
  | completed (cmd : String) (r : ProcResult)
  | failedLaunch (cmd : String) (msg : String)
deriving DecidableEq

/-- How the retry loop of `execute_cli_command` (lines 197-234) ends: with a
last completed result (loop `break`, or budget exhaustion after a transient
failure), with a re-raised launch exception caught by the outer handler, or,
only when the loop body never ran, with no result at all. -/
inductive LoopExit where
  | done (r : ProcResult) (cmd : String)
  | raised (msg : String) (cmd : String)
  | noResult
deriving DecidableEq

/-- Lines 222-228: on a transient failure whose stderr also mentions `ctags`,
append `--no-color` to the command unless already present. -/
def ctags_adjust (cmd stderrText : String) : String :=
  if strContains stderrText "ctags" && !(strContains cmd "--no-color") then
    cmd ++ " --no-color"
  else cmd

/-- Line 198: the fixed retry budget of `execute_cli_command`. -/
def maxRetries : Nat := 3

/-- Lines 201-234: the retry loop.  The external `subprocess.run` is the
oracle `run`, indexed by the current `retry_count` (which equals the number
of earlier attempts) and by the current command string.  `fuel` is only a
structural recursion bound; the top-level call supplies `fuel = maxRetries`,
which the loop can never consume because `retry_count` reaches the budget
first.  Besides the loop exit, the list of attempts actually made is
returned, in order, so that the retry policy can be stated. -/
def execLoopAux (run : Nat → String → RunOutcome) :
    Nat → Nat → String → LoopExit × List Attempt
  | 0, _, _ => (.noResult, [])
  | fuel+1, rc, cmd =>
    if rc < maxRetries then
      match run rc cmd with
      | .ok r =>
        if (r.returncode == 0) || !(strContains r.stderr "temporary file") then
          (.done r cmd, [.completed cmd r])
        else if rc + 1 ≥ maxRetries then
          (.done r (ctags_adjust cmd r.stderr), [.completed cmd r])
        else
          ((execLoopAux run fuel (rc+1) (ctags_adjust cmd r.stderr)).1,
            .completed cmd r :: (execLoopAux run fuel (rc+1) (ctags_adjust cmd r.stderr)).2)
      | .exn msg =>
        if rc + 1 ≥ maxRetries then (.raised msg cmd, [.failedLaunch cmd msg])
        else
          ((execLoopAux run fuel (rc+1) cmd).1,
            .failedLaunch cmd msg :: (execLoopAux run fuel (rc+1) cmd).2)
    else (.noResult, [])

/-- The retry loop as entered by `execute_cli_command`: `retry_count = 0`. -/
def execLoopT (run : Nat → String → RunOutcome) (cmd : String) :
    LoopExit × List Attempt :=
  execLoopAux run maxRetries 0 cmd

/-- Lines 236-250: build the returned record.  For a completed last attempt,
the command field is the `full_command` captured on line 143 before any
argument mutation, and the error field carries the captured stderr only for a
non-zero exit; when the loop re-raised a launch error, the outer handler
(lines 242-250) reports it with the current, possibly mutated, command.  The
`noResult` case is unreachable from the top-level call (the loop body always
runs at least once when the budget is positive). -/
def mkCommandResult (full_command : String) : LoopExit → ArduinoCommandResult
  | .done r _ =>
    { command := full_command, success := r.returncode == 0, output := r.stdout,
      error := if r.returncode == 0 then "" else r.stderr }
  | .raised msg cmdNow =>
    { command := "arduino-cli " ++ cmdNow, success := false, output := "",
      error := "Error executing command: " ++ msg }
  | .noResult =>
    { command := full_command, success := false, output := "",
      error := "Error executing command: " }

/-- Lines 186-195: for a compile command, the fixed directory
`workdir/build_output` is created when absent, and a `--build-path` argument
pointing at it is appended unless the command already contains one.  The
second component records whether a directory-creation call was made;
`buildDirExists` is the `os.path.exists(build_dir)` oracle. -/
def build_path_step (workdir : String) (buildDirExists : Bool) (command : String) :
    String × Bool :=
  if strStarts command "compile" then
    let build_dir := pathJoin workdir "build_output"
    let created := !buildDirExists
    if !(strContains command "--build-path") then
      (command ++ " --build-path \"" ++ build_dir ++ "\"", created)
    else (command, created)
  else (command, false)

/-- Lines 140-250, `execute_cli_command`, composed from the build-path
injection and the retry loop.  The environment preparation of lines 149-184
only affects the child process and is modelled separately by
`resolve_temp_env`; its effect on the child is absorbed into the `run`
oracle. -/
def execute_cli_command (run : Nat → String → RunOutcome) (workdir : String)
    (buildDirExists : Bool) (command : String) : ArduinoCommandResult :=
  let full_command := "arduino-cli " ++ command
  let command2 := (build_path_step workdir buildDirExists command).1
  mkCommandResult full_command (execLoopT run command2).1

/-- Unfolding equation for the recursive case of the retry loop. -/
theorem execLoopAux_succ (run : Nat → String → RunOutcome) (n rc : Nat) (cmd : String) :
    execLoopAux run (n+1) rc cmd =
      if rc < maxRetries then
        match run rc cmd with
        | .ok r =>
          if (r.returncode == 0) || !(strContains r.stderr "temporary file") then
            (.done r cmd, [.completed cmd r])
          else if rc + 1 ≥ maxRetries then
            (.done r (ctags_adjust cmd r.stderr), [.completed cmd r])
          else
            ((execLoopAux run n (rc+1) (ctags_adjust cmd r.stderr)).1,
              .completed cmd r :: (execLoopAux run n (rc+1) (ctags_adjust cmd r.stderr)).2)
        | .exn msg =>
          if rc + 1 ≥ maxRetries then (.raised msg cmd, [.failedLaunch cmd msg])
          else
            ((execLoopAux run n (rc+1) cmd).1,
              .failedLaunch cmd msg :: (execLoopAux run n (rc+1) cmd).2)
      else (.noResult, []) := rfl

/-- The loop makes at most `fuel` attempts. -/
theorem execLoopAux_length_le (run : Nat → String → RunOutcome) :
    ∀ fuel rc cmd, ((execLoopAux run fuel rc cmd).2).length ≤ fuel := by
  intro fuel
  induction fuel with
  | zero => intro rc cmd; simp [execLoopAux]
  | succ n ih =>
    intro rc cmd
    rw [execLoopAux_succ]
    split
    · cases hrun : run rc cmd with
      | ok r =>
        dsimp only
        split
        · simp
        · split
          · simp
          · have := ih (rc+1) (ctags_adjust cmd r.stderr)
            simp only [List.length_cons]
            omega
      | exn msg =>
        dsimp only
        split
        · simp
        · have := ih (rc+1) cmd
          simp only [List.length_cons]
          omega
    · simp

/-- When the loop body runs at least once, at least one attempt is made. -/
theorem execLoopAux_ne_nil (run : Nat → String → RunOutcome) (fuel rc : Nat)
    (cmd : String) (hf : 0 < fuel) (hrc : rc < maxRetries) :
    (execLoopAux run fuel rc cmd).2 ≠ [] := by
  cases fuel with
  | zero => omega
  | succ n =>
    rw [execLoopAux_succ, if_pos hrc]
    cases hrun : run rc cmd with
    | ok r =>
      dsimp only
      split
      · simp
      · split <;> simp
    | exn msg =>
      dsimp only
      split <;> simp

/-- Retry policy of the loop: every completed attempt that was followed by a
further attempt had a non-zero exit code and a stderr containing the
transient-failure substring. -/
theorem execLoopAux_retry_only (run : Nat → String → RunOutcome) :
    ∀ fuel rc cmd i c r,
      ((execLoopAux run fuel rc cmd).2).get? i = some (.completed c r) →
      i + 1 < ((execLoopAux run fuel rc cmd).2).length →
      (r.returncode == 0) = false ∧ strContains r.stderr "temporary file" = true := by
  intro fuel
  induction fuel with
  | zero => intro rc cmd i c r h hlen; simp [execLoopAux] at h
  | succ n ih =>
    intro rc cmd i c r h hlen
    rw [execLoopAux_succ] at h hlen
    by_cases hrc : rc < maxRetries
    · rw [if_pos hrc] at h hlen
      cases hrun : run rc cmd with
      | ok r0 =>
        rw [hrun] at h hlen
        dsimp only at h hlen
        by_cases h1 : (r0.returncode == 0) || !(strContains r0.stderr "temporary file")
        · rw [if_pos h1] at h hlen
          simp at hlen
        · rw [if_neg h1] at h hlen
          by_cases h2 : rc + 1 ≥ maxRetries
          · rw [if_pos h2] at h hlen
            simp at hlen
          · rw [if_neg h2] at h hlen
            cases i with
            | zero =>
              simp only [List.get?] at h
              have hcr : Attempt.completed cmd r0 = Attempt.completed c r := by
                exact Option.some.inj h
              have hr : r0 = r := by
                cases hcr; rfl
              subst hr
              constructor
              · by_contra hb
                apply h1
                simp only [Bool.or_eq_true]
                left
                revert hb
                cases r0.returncode == 0 <;> simp
              · by_contra hb
                apply h1
                simp only [Bool.or_eq_true]
                right
                revert hb
                cases strContains r0.stderr "temporary file" <;> simp
            | succ j =>
              simp only [List.get?] at h
              simp only [List.length_cons] at hlen
              exact ih (rc+1) (ctags_adjust cmd r0.stderr) j c r h (by omega)
      | exn msg =>
        rw [hrun] at h hlen
        dsimp only at h hlen
        by_cases h2 : rc + 1 ≥ maxRetries
        · rw [if_pos h2] at h hlen
          simp at hlen
        · rw [if_neg h2] at h hlen
          cases i with
          | zero => simp only [List.get?] at h; exact absurd h (by simp)
          | succ j =>
            simp only [List.get?] at h
            simp only [List.length_cons] at hlen
            exact ih (rc+1) cmd j c r h (by omega)
    · rw [if_neg hrc] at h
      simp at h

/-- When the last attempt made by the loop completed with result `r`, the
loop exits with `done r`: the loop's exit value is built from the final
attempt.  The hypothesis `maxRetries ≤ fuel + rc` says the structural fuel
does not run out before the retry budget, which holds for the top-level
call. -/
theorem execLoopAux_last_done (run : Nat → String → RunOutcome) :
    ∀ fuel rc cmd c r, maxRetries ≤ fuel + rc →
      ((execLoopAux run fuel rc cmd).2).getLast? = some (.completed c r) →
      ∃ c2, (execLoopAux run fuel rc cmd).1 = .done r c2 := by
  intro fuel
  induction fuel with
  | zero => intro rc cmd c r hfuel h; simp [execLoopAux] at h
  | succ n ih =>
    intro rc cmd c r hfuel h
    rw [execLoopAux_succ] at h ⊢
    by_cases hrc : rc < maxRetries
    · rw [if_pos hrc] at h ⊢
      cases hrun : run rc cmd with
      | ok r0 =>
        rw [hrun] at h
        dsimp only at h ⊢
        by_cases h1 : (r0.returncode == 0) || !(strContains r0.stderr "temporary file")
        · rw [if_pos h1] at h ⊢
          simp only [List.getLast?_singleton] at h
          have hcr : Attempt.completed cmd r0 = Attempt.completed c r := Option.some.inj h
          have hr : r0 = r := by cases hcr; rfl
          exact ⟨cmd, by rw [hr]⟩
        · rw [if_neg h1] at h ⊢
          by_cases h2 : rc + 1 ≥ maxRetries
          · rw [if_pos h2] at h ⊢
            simp only [List.getLast?_singleton] at h
            have hcr : Attempt.completed cmd r0 = Attempt.completed c r := Option.some.inj h
            have hr : r0 = r := by cases hcr; rfl
            exact ⟨ctags_adjust cmd r0.stderr, by rw [hr]⟩
          · rw [if_neg h2] at h ⊢
            have hne : (execLoopAux run n (rc+1) (ctags_adjust cmd r0.stderr)).2 ≠ [] := by
              apply execLoopAux_ne_nil
              · omega
              · omega
            have hlast :
                (Attempt.completed cmd r0 ::
                  (execLoopAux run n (rc+1) (ctags_adjust cmd r0.stderr)).2).getLast?
                = ((execLoopAux run n (rc+1) (ctags_adjust cmd r0.stderr)).2).getLast? := by
              rcases hx : (execLoopAux run n (rc+1) (ctags_adjust cmd r0.stderr)).2 with _ | ⟨b, l⟩
              · exact absurd hx hne
              · rw [List.getLast?_cons_cons]
            rw [hlast] at h
            exact ih (rc+1) (ctags_adjust cmd r0.stderr) c r (by omega) h
      | exn msg =>
        rw [hrun] at h
        dsimp only at h ⊢
        by_cases h2 : rc + 1 ≥ maxRetries
        · rw [if_pos h2] at h ⊢
          simp only [List.getLast?_singleton] at h
          exact absurd h (by simp)
        · rw [if_neg h2] at h ⊢
          have hne : (execLoopAux run n (rc+1) cmd).2 ≠ [] := by
            apply execLoopAux_ne_nil
            · omega
            · omega
          have hlast :
              (Attempt.failedLaunch cmd msg :: (execLoopAux run n (rc+1) cmd).2).getLast?
              = ((execLoopAux run n (rc+1) cmd).2).getLast? := by
            rcases hx : (execLoopAux run n (rc+1) cmd).2 with _ | ⟨b, l⟩
            · exact absurd hx hne
            · rw [List.getLast?_cons_cons]
          rw [hlast] at h
          exact ih (rc+1) cmd c r (by omega) h
    · rw [if_neg hrc] at h
      simp at h

/-- Claim C1: the retry loop makes at most 3 attempts in total; a completed
attempt is followed by a further attempt only if it exited non-zero and its
captured stderr contains the substring "temporary file" (so any attempt that
succeeds, or fails without that substring, terminates the loop immediately);
when the last attempt made completed, the loop exit and hence the returned
`ArduinoCommandResult` are built from exactly that attempt; and when every
attempt is a transient failure, three attempts are made and the third
attempt's result is returned with `success = false`. -/
theorem c1_retry_policy (run : Nat → String → RunOutcome) (cmd : String) :
    ((execLoopT run cmd).2).length ≤ 3
    ∧ (∀ i c r, ((execLoopT run cmd).2).get? i = some (.completed c r) →
        i + 1 < ((execLoopT run cmd).2).length →
        (r.returncode == 0) = false ∧ strContains r.stderr "temporary file" = true)
    ∧ (∀ c r, ((execLoopT run cmd).2).getLast? = some (.completed c r) →
        ∃ c2, (execLoopT run cmd).1 = .done r c2
          ∧ mkCommandResult ("arduino-cli " ++ cmd) ((execLoopT run cmd).1) =
              { command := "arduino-cli " ++ cmd, success := r.returncode == 0,
                output := r.stdout,
                error := if r.returncode == 0 then "" else r.stderr })
    ∧ ((∀ i c, ∃ r, run i c = .ok r ∧ (r.returncode == 0) = false
          ∧ strContains r.stderr "temporary file" = true) →
        ((execLoopT run cmd).2).length = 3
        ∧ ∃ r c2 c3, run 2 c3 = .ok r ∧ (execLoopT run cmd).1 = .done r c2
          ∧ (mkCommandResult ("arduino-cli " ++ cmd) ((execLoopT run cmd).1)).success
              = false) := by
  refine ⟨execLoopAux_length_le run maxRetries 0 cmd, ?_, ?_, ?_⟩
  · intro i c r h hlen
    exact execLoopAux_retry_only run maxRetries 0 cmd i c r h hlen
  · intro c r h
    obtain ⟨c2, he⟩ := execLoopAux_last_done run maxRetries 0 cmd c r (by omega) h
    refine ⟨c2, he, ?_⟩
    show mkCommandResult ("arduino-cli " ++ cmd) (execLoopAux run maxRetries 0 cmd).1 = _
    rw [he]
    rfl
  · intro hall
    obtain ⟨r0, h0, hb0, hc0⟩ := hall 0 cmd
    obtain ⟨r1, h1, hb1, hc1⟩ := hall 1 (ctags_adjust cmd r0.stderr)
    obtain ⟨r2, h2, hb2, hc2⟩ :=
      hall 2 (ctags_adjust (ctags_adjust cmd r0.stderr) r1.stderr)
    have key : execLoopT run cmd =
        (.done r2 (ctags_adjust (ctags_adjust (ctags_adjust cmd r0.stderr) r1.stderr)
            r2.stderr),
         [.completed cmd r0,
          .completed (ctags_adjust cmd r0.stderr) r1,
          .completed (ctags_adjust (ctags_adjust cmd r0.stderr) r1.stderr) r2]) := by
      rw [show execLoopT run cmd = execLoopAux run 3 0 cmd from rfl]
      simp [execLoopAux_succ, maxRetries, h0, h1, h2, hb0, hb1, hb2, hc0, hc1, hc2]
    refine ⟨by rw [key]; rfl, r2,
      ctags_adjust (ctags_adjust (ctags_adjust cmd r0.stderr) r1.stderr) r2.stderr,
      ctags_adjust (ctags_adjust cmd r0.stderr) r1.stderr, h2, by rw [key], ?_⟩
    rw [key]
    show (r2.returncode == 0) = false
    exact hb2

/-- Concrete instantiation of `c1_retry_policy`: when every attempt fails
with exit code 1 and a stderr mentioning a temporary file, exactly three
attempts are made and the final result is a failure. -/
theorem c1_retry_policy_witness :
    ((execLoopT (fun _ _ => .ok ⟨1, "", "cannot create temporary file"⟩)
        "core list").2).length = 3
    ∧ (mkCommandResult ("arduino-cli " ++ "core list")
        ((execLoopT (fun _ _ => .ok ⟨1, "", "cannot create temporary file"⟩)
          "core list").1)).success = false := by
  have h := (c1_retry_policy (fun _ _ => .ok ⟨1, "", "cannot create temporary file"⟩)
      "core list").2.2.2
      (fun _ _ => ⟨⟨1, "", "cannot create temporary file"⟩, rfl, by decide, by decide⟩)
  obtain ⟨hlen, r, c2, c3, hr, he, hs⟩ := h
  exact ⟨hlen, hs⟩

/-- Claim C3: when the child process can never be started (every iteration of
the loop raises), each launch error consumes exactly one retry increment, so
three launch attempts are made; after exhaustion the loop re-raises the
*last* launch error, and the outer handler of lines 242-250 delivers it to
the caller as a runner-level failure record with `success = false`, an empty
output, and an error text prefixed with "Error executing command: " — distinct
in shape from a tool-reported failure, whose error field is the captured
stderr. -/
theorem c3_launch_error (run : Nat → String → RunOutcome) (workdir cmd : String)
    (b : Bool) (m : Nat → String) (h : ∀ i c, run i c = .exn (m i)) :
    (execLoopT run ((build_path_step workdir b cmd).1)).2 =
      [.failedLaunch ((build_path_step workdir b cmd).1) (m 0),
       .failedLaunch ((build_path_step workdir b cmd).1) (m 1),
       .failedLaunch ((build_path_step workdir b cmd).1) (m 2)]
    ∧ (execLoopT run ((build_path_step workdir b cmd).1)).1 =
        .raised (m 2) ((build_path_step workdir b cmd).1)
    ∧ execute_cli_command run workdir b cmd =
        { command := "arduino-cli " ++ (build_path_step workdir b cmd).1,
          success := false, output := "",
          error := "Error executing command: " ++ m 2 } := by
  have key : execLoopT run ((build_path_step workdir b cmd).1) =
      (.raised (m 2) ((build_path_step workdir b cmd).1),
       [.failedLaunch ((build_path_step workdir b cmd).1) (m 0),
        .failedLaunch ((build_path_step workdir b cmd).1) (m 1),
        .failedLaunch ((build_path_step workdir b cmd).1) (m 2)]) := by
    rw [show execLoopT run ((build_path_step workdir b cmd).1)
        = execLoopAux run 3 0 ((build_path_step workdir b cmd).1) from rfl]
    simp [execLoopAux_succ, maxRetries, h]
  refine ⟨by rw [key], by rw [key], ?_⟩
  show mkCommandResult ("arduino-cli " ++ cmd)
      (execLoopT run ((build_path_step workdir b cmd).1)).1 = _
  rw [key]
  rfl

/-- Concrete instantiation of `c3_launch_error`: a permanently missing binary
yields the runner-level failure record built from the third launch error. -/
theorem c3_launch_error_witness :
    execute_cli_command (fun _ _ => .exn "No such file or directory: arduino-cli")
      "/wd" true "version" =
    { command := "arduino-cli version", success := false, output := "",
      error := "Error executing command: No such file or directory: arduino-cli" } :=
  (c3_launch_error (fun _ _ => .exn "No such file or directory: arduino-cli")
    "/wd" "version" true (fun _ => "No such file or directory: arduino-cli")
    (fun _ _ => rfl)).2.2

/-- Claim C10: when the loop ends with a completed attempt, the returned
record has `success` exactly when the exit code is 0, `output` equal to the
captured stdout, an empty `error` on exit code 0 (even when stderr was
non-empty), and `error` equal to the captured stderr on a non-zero exit. -/
theorem c10_result_fields (run : Nat → String → RunOutcome) (workdir cmd : String)
    (b : Bool) (r : ProcResult) (c : String)
    (h : (execLoopT run ((build_path_step workdir b cmd).1)).1 = .done r c) :
    (execute_cli_command run workdir b cmd).success = (r.returncode == 0)
    ∧ (execute_cli_command run workdir b cmd).output = r.stdout
    ∧ (r.returncode = 0 → (execute_cli_command run workdir b cmd).error = "")
    ∧ (r.returncode ≠ 0 → (execute_cli_command run workdir b cmd).error = r.stderr) := by
  have hv : execute_cli_command run workdir b cmd
      = mkCommandResult ("arduino-cli " ++ cmd) (LoopExit.done r c) := by
    show mkCommandResult ("arduino-cli " ++ cmd)
        (execLoopT run ((build_path_step workdir b cmd).1)).1 = _
    rw [h]
  rw [hv]
  refine ⟨rfl, rfl, ?_, ?_⟩
  · intro h0
    simp [mkCommandResult, h0]
  · intro hne
    have hb : (r.returncode == 0) = false := by
      simpa using hne
    simp [mkCommandResult, hb]

/-- Concrete instantiation of `c10_result_fields`: a successful run whose
stderr is non-empty still reports an empty error and the captured stdout. -/
theorem c10_result_fields_witness :
    (execute_cli_command (fun _ _ => .ok ⟨0, "ok output", "warning: noise"⟩)
        "/wd" true "version").error = ""
    ∧ (execute_cli_command (fun _ _ => .ok ⟨0, "ok output", "warning: noise"⟩)
        "/wd" true "version").output = "ok output" := by
  have h := c10_result_fields (fun _ _ => .ok ⟨0, "ok output", "warning: noise"⟩)
    "/wd" "version" true ⟨0, "ok output", "warning: noise"⟩ "version" (by decide)
  exact ⟨h.2.2.1 rfl, h.2.1⟩

/-- Lines 158-184: the temp-directory environment resolver of
`execute_cli_command`.  `ex` is prior existence of a path, `cr` is whether
`os.makedirs` succeeds for it (creation is attempted only for a missing
directory, and a failure is only logged as a warning), and `wr` is the
`os.access(.., W_OK)` writability test of the second loop, which picks the
first candidate that exists and is writable and sets `TMPDIR`, `TMP` and
`TEMP` to it; when no candidate qualifies the environment is left untouched.
The environment is an association list in which the most recent binding for
a key is read first. -/
def resolve_temp_env (ex cr wr : String → Bool) (workdir home : String)
    (env : List (String × String)) : List (String × String) :=
  let temp_dirs := [pathJoin workdir "arduino_cli_temp",
                    pathJoin workdir ".arduino_tmp",
                    pathJoin home ".arduino_cli_temp"]
  match temp_dirs.find? (fun d => (ex d || cr d) && wr d) with
  | some d => ("TEMP", d) :: ("TMP", d) :: ("TMPDIR", d) :: env
  | none => env

/-- Claim C8: the resolver tries the three candidate directories in their
fixed order — project-local `arduino_cli_temp`, hidden project-local
`.arduino_tmp`, then `~/.arduino_cli_temp` — a candidate qualifying when it
exists afterwards (it existed before, or its creation succeeded; a failed
creation is merely skipped) and is writable; `TMPDIR`, `TMP` and `TEMP` are
all set to the first qualifying candidate; and when no candidate qualifies
the environment is returned unchanged, with no exception (the resolver is a
total function). -/
theorem c8_temp_env (ex cr wr : String → Bool) (workdir home : String)
    (env : List (String × String)) :
    (((ex (pathJoin workdir "arduino_cli_temp") || cr (pathJoin workdir "arduino_cli_temp"))
        && wr (pathJoin workdir "arduino_cli_temp")) = true →
      List.lookup "TMPDIR" (resolve_temp_env ex cr wr workdir home env)
          = some (pathJoin workdir "arduino_cli_temp")
      ∧ List.lookup "TMP" (resolve_temp_env ex cr wr workdir home env)
          = some (pathJoin workdir "arduino_cli_temp")
      ∧ List.lookup "TEMP" (resolve_temp_env ex cr wr workdir home env)
          = some (pathJoin workdir "arduino_cli_temp"))
    ∧ (((ex (pathJoin workdir "arduino_cli_temp") || cr (pathJoin workdir "arduino_cli_temp"))
          && wr (pathJoin workdir "arduino_cli_temp")) = false →
        ((ex (pathJoin workdir ".arduino_tmp") || cr (pathJoin workdir ".arduino_tmp"))
          && wr (pathJoin workdir ".arduino_tmp")) = true →
      List.lookup "TMPDIR" (resolve_temp_env ex cr wr workdir home env)
          = some (pathJoin workdir ".arduino_tmp")
      ∧ List.lookup "TMP" (resolve_temp_env ex cr wr workdir home env)
          = some (pathJoin workdir ".arduino_tmp")
      ∧ List.lookup "TEMP" (resolve_temp_env ex cr wr workdir home env)
          = some (pathJoin workdir ".arduino_tmp"))
    ∧ (((ex (pathJoin workdir "arduino_cli_temp") || cr (pathJoin workdir "arduino_cli_temp"))
          && wr (pathJoin workdir "arduino_cli_temp")) = false →
        ((ex (pathJoin workdir ".arduino_tmp") || cr (pathJoin workdir ".arduino_tmp"))
          && wr (pathJoin workdir ".arduino_tmp")) = false →
        ((ex (pathJoin home ".arduino_cli_temp") || cr (pathJoin home ".arduino_cli_temp"))
          && wr (pathJoin home ".arduino_cli_temp")) = true →
      List.lookup "TMPDIR" (resolve_temp_env ex cr wr workdir home env)
          = some (pathJoin home ".arduino_cli_temp")
      ∧ List.lookup "TMP" (resolve_temp_env ex cr wr workdir home env)
          = some (pathJoin home ".arduino_cli_temp")
      ∧ List.lookup "TEMP" (resolve_temp_env ex cr wr workdir home env)
          = some (pathJoin home ".arduino_cli_temp"))
    ∧ (((ex (pathJoin workdir "arduino_cli_temp") || cr (pathJoin workdir "arduino_cli_temp"))
          && wr (pathJoin workdir "arduino_cli_temp")) = false →
        ((ex (pathJoin workdir ".arduino_tmp") || cr (pathJoin workdir ".arduino_tmp"))
          && wr (pathJoin workdir ".arduino_tmp")) = false →
        ((ex (pathJoin home ".arduino_cli_temp") || cr (pathJoin home ".arduino_cli_temp"))
          && wr (pathJoin home ".arduino_cli_temp")) = false →
      resolve_temp_env ex cr wr workdir home env = env) := by
  refine ⟨?_, ?_, ?_, ?_⟩
  · intro h1
    simp [resolve_temp_env, List.find?, h1, List.lookup]
  · intro h1 h2
    simp [resolve_temp_env, List.find?, h1, h2, List.lookup]
  · intro h1 h2 h3
    simp [resolve_temp_env, List.find?, h1, h2, h3, List.lookup]
  · intro h1 h2 h3
    simp [resolve_temp_env, List.find?, h1, h2, h3]

/-- Concrete instantiation of `c8_temp_env`: when nothing exists but every
creation succeeds and everything is writable, the first candidate wins. -/
theorem c8_temp_env_witness :
    List.lookup "TMPDIR"
        (resolve_temp_env (fun _ => false) (fun _ => true) (fun _ => true)
          "/wd" "/home/u" [])
      = some "/wd/arduino_cli_temp" :=
  ((c8_temp_env (fun _ => false) (fun _ => true) (fun _ => true)
      "/wd" "/home/u" []).1 rfl).1

/-- Counterexample to claim C9 as stated: the injected `--build-path`
argument points at the same fixed `build_output` directory under the working
directory for two compile commands that target different projects, so the
directory is derived from the working directory alone, not from the target
project. -/
theorem c9_build_path_counterexample :
    ("compile /ws/ProjA/ProjA.ino" == "compile /ws/ProjB/ProjB.ino") = false
    ∧ (build_path_step "/wd" false "compile /ws/ProjA/ProjA.ino").1 =
        "compile /ws/ProjA/ProjA.ino --build-path \"/wd/build_output\""
    ∧ (build_path_step "/wd" false "compile /ws/ProjB/ProjB.ino").1 =
        "compile /ws/ProjB/ProjB.ino --build-path \"/wd/build_output\"" := by
  refine ⟨by decide, rfl, rfl⟩

/-- Claim C9 as amended: for a command beginning with `compile` and not
already containing `--build-path`, a build-path argument pointing at the
fixed directory `build_output` under the working directory (the same
directory for every target project) is appended, and that directory is
created when absent; a compile command that already contains `--build-path`
keeps its argument vector (the directory is still created when absent); and
a non-compile command is left entirely unchanged. -/
theorem c9_build_path_amended (workdir cmd : String) (dirExists : Bool) :
    (strStarts cmd "compile" = true → strContains cmd "--build-path" = false →
      build_path_step workdir dirExists cmd =
        (cmd ++ " --build-path \"" ++ pathJoin workdir "build_output" ++ "\"",
         !dirExists))
    ∧ (strStarts cmd "compile" = true → strContains cmd "--build-path" = true →
      build_path_step workdir dirExists cmd = (cmd, !dirExists))
    ∧ (strStarts cmd "compile" = false →
      build_path_step workdir dirExists cmd = (cmd, false)) := by
  refine ⟨?_, ?_, ?_⟩ <;> intros <;> simp_all [build_path_step]

/-- Concrete instantiation of `c9_build_path_amended`: the argument appended
for a compile command without a caller-supplied build path. -/
theorem c9_build_path_amended_witness :
    build_path_step "/wd" false "compile /ws/P/P.ino" =
      ("compile /ws/P/P.ino --build-path \"/wd/build_output\"", true) :=
  (c9_build_path_amended "/wd" "compile /ws/P/P.ino" false).1 (by decide) (by decide)

/-- Lines 332-386: the live-compilation path of `compile_sketch`, reached
when no stored successful result short-circuited it.  `live` is the nested
`execute_cli_command` invocation (with its dedicated temp-dir environment),
`extract` abstracts the binary-path regular-expression search of line 376,
and `stored_result` is whatever `get_command_result` returned on line 318.
The second component of the result counts the live invocations of the
external tool (here always 1). -/
def compile_sketch_live (live : String → ArduinoCommandResult)
    (extract : String → String) (sketch_path fqbn : String)
    (stored_result : Option ArduinoCommandResult) : CompileResult × Nat :=
  let sketch_build_path := pathJoin (dirname sketch_path) "build"
  let compile_cmd :=
    ("compile " ++ sketch_path ++ (if fqbn != "" then " --fqbn " ++ fqbn else ""))
      ++ " --build-path " ++ sketch_build_path ++ " -v"
  let result := live compile_cmd
  let storedSuccess := match stored_result with
    | some r => r.success
    | none => false
  if !result.success && strContains result.error "temporary file" && storedSuccess then
    ({ sketch := sketch_path, success := true,
       output := (stored_result.map (fun r => r.output)).getD "",
       error := "", binary_path := "" }, 1)
  else
    ({ sketch := sketch_path, success := result.success, output := result.output,
       error := result.error,
       binary_path := if result.success then extract result.output else "" }, 1)

/-- Lines 272-386, `compile_sketch`.  The filesystem facts — sketch existence
and non-emptiness — enter as booleans (the path is taken to be already
absolute and normalized, so lines 275-277 are identities), the cache is the
explicit `CacheState`, and the remaining effects are the oracles of
`compile_sketch_live`.  Lines 314-328: when a stored result for the simple
command key exists and was successful, it is returned at once, before any
live invocation. -/
def compile_sketch (pyhash : String → Int) (s : CacheState)
    (live : String → ArduinoCommandResult) (extract : String → String)
    (sketch_path fqbn : String) (sketchExists sketchNonempty : Bool) :
    CompileResult × Nat :=
  if !sketchExists then
    ({ sketch := sketch_path, success := false, output := "",
       error := "Sketch file not found: " ++ sketch_path }, 0)
  else if !sketchNonempty then
    ({ sketch := sketch_path, success := false, output := "",
       error := "Sketch file is empty" }, 0)
  else
    match get_command_result pyhash s
        ("compile -b " ++ fqbn ++ " " ++ basename (dirname sketch_path)) with
    | some stored =>
      if stored.success then
        ({ sketch := sketch_path, success := true, output := stored.output,
           error := "", binary_path := "" }, 0)
      else compile_sketch_live live extract sketch_path fqbn (some stored)
    | none => compile_sketch_live live extract sketch_path fqbn none

/-- Counterexample to claim C2 as stated: with a cached successful result for
the logical compile command, `compile_sketch` returns that cached result with
zero live invocations of the external tool — the substitution is not a last
resort after a live transient failure (here the live oracle would not even
fail transiently), it happens before any live call is made. -/
theorem c2_eager_cache_counterexample :
    compile_sketch (fun _ => 0)
      ⟨[("compile -b arduino:avr:uno Blink",
         { command := "arduino-cli compile -b arduino:avr:uno Blink",
           success := true, output := "cached ok", error := "" })], []⟩
      (fun _ => { command := "", success := false, output := "live out",
                  error := "hard failure" })
      (fun _ => "")
      "/ws/Blink/Blink.ino" "arduino:avr:uno" true true =
    ({ sketch := "/ws/Blink/Blink.ino", success := true, output := "cached ok",
       error := "", binary_path := "", error_code := 0 }, 0) := by
  rfl

/-- Claim C2 as amended: a previously cached successful result for the same
logical compile command is substituted eagerly — whenever it exists it is
returned before any live invocation is made (zero live invocations), not as
a last resort; and when no cached successful result exists, the returned
`CompileResult` reflects the live invocation (one live invocation, with the
transient-failure fallback branch of lines 362-371 unreachable because it
requires the stored success that would already have short-circuited). -/
theorem c2_cache_substitution_amended (pyhash : String → Int) (s : CacheState)
    (live : String → ArduinoCommandResult) (extract : String → String)
    (sketch_path fqbn : String) :
    (∀ stored,
      get_command_result pyhash s
          ("compile -b " ++ fqbn ++ " " ++ basename (dirname sketch_path))
        = some stored →
      stored.success = true →
      compile_sketch pyhash s live extract sketch_path fqbn true true =
        ({ sketch := sketch_path, success := true, output := stored.output,
           error := "", binary_path := "", error_code := 0 }, 0))
    ∧ ((match get_command_result pyhash s
          ("compile -b " ++ fqbn ++ " " ++ basename (dirname sketch_path)) with
        | some stored => stored.success
        | none => false) = false →
      (compile_sketch pyhash s live extract sketch_path fqbn true true).2 = 1
      ∧ (compile_sketch pyhash s live extract sketch_path fqbn true true).1 =
          { sketch := sketch_path,
            success := (live (("compile " ++ sketch_path
                ++ (if fqbn != "" then " --fqbn " ++ fqbn else ""))
                ++ " --build-path " ++ pathJoin (dirname sketch_path) "build"
                ++ " -v")).success,
            output := (live (("compile " ++ sketch_path
                ++ (if fqbn != "" then " --fqbn " ++ fqbn else ""))
                ++ " --build-path " ++ pathJoin (dirname sketch_path) "build"
                ++ " -v")).output,
            error := (live (("compile " ++ sketch_path
                ++ (if fqbn != "" then " --fqbn " ++ fqbn else ""))
                ++ " --build-path " ++ pathJoin (dirname sketch_path) "build"
                ++ " -v")).error,
            binary_path :=
              if (live (("compile " ++ sketch_path
                  ++ (if fqbn != "" then " --fqbn " ++ fqbn else ""))
                  ++ " --build-path " ++ pathJoin (dirname sketch_path) "build"
                  ++ " -v")).success then
                extract (live (("compile " ++ sketch_path
                  ++ (if fqbn != "" then " --fqbn " ++ fqbn else ""))
                  ++ " --build-path " ++ pathJoin (dirname sketch_path) "build"
                  ++ " -v")).output
              else "",
            error_code := 0 }) := by
  constructor
  · intro stored hget hsucc
    unfold compile_sketch
    rw [hget]
    simp [hsucc]
  · intro hns
    cases hget : get_command_result pyhash s
        ("compile -b " ++ fqbn ++ " " ++ basename (dirname sketch_path)) with
    | some stored =>
      rw [hget] at hns
      dsimp only at hns
      unfold compile_sketch
      rw [hget]
      unfold compile_sketch_live
      simp [hns]
    | none =>
      unfold compile_sketch
      rw [hget]
      unfold compile_sketch_live
      simp

/-- Concrete instantiation of `c2_cache_substitution_amended`: the eager
substitution at a stored successful result. -/
theorem c2_cache_substitution_amended_witness :
    compile_sketch (fun _ => 0)
      ⟨[("compile -b uno B",
         { command := "c", success := true, output := "stored out", error := "" })], []⟩
      (fun _ => { command := "", success := true, output := "live", error := "" })
      (fun _ => "")
      "/x/B/B.ino" "uno" true true =
    ({ sketch := "/x/B/B.ino", success := true, output := "stored out",
       error := "", binary_path := "", error_code := 0 }, 0) :=
  (c2_cache_substitution_amended (fun _ => 0)
      ⟨[("compile -b uno B",
         { command := "c", success := true, output := "stored out", error := "" })], []⟩
      (fun _ => { command := "", success := true, output := "live", error := "" })
      (fun _ => "") "/x/B/B.ino" "uno").1
    { command := "c", success := true, output := "stored out", error := "" }
    rfl rfl

/-- Lines 816-827: the error-code assignment of `simplified_compile`
(1 = syntax error, 2 = undefined reference, 3 = missing dependency,
4 = unsupported target), evaluated on the chosen error text. -/
def simplified_error_code (error_text : String) : Int :=
  if strContains error_text "undefined reference" then 2
  else if strContains error_text "No such file or directory"
      || (strContains (strLower error_text) "library"
          && strContains (strLower error_text) "not found") then 3
  else if strContains (strLower error_text) "board"
      && (strContains (strLower error_text) "unknown"
          || strContains (strLower error_text) "not found") then 4
  else 1

/-- Line 819: the text classified is the error field when non-empty,
otherwise the captured output (Python `or` on strings). -/
def simplified_error_text (error output : String) : String :=
  if error == "" then output else error

/-- Counterexample to claim C4 as stated: an error text that contains both
"No such file or directory" and "board" plus "unknown" but also contains
"undefined reference" is classified as code 2 (UndefinedReference), not 3
(MissingDependency), because the undefined-reference pattern is checked
first. -/
theorem c4_classification_counterexample :
    strContains "undefined reference to foo: No such file or directory for board unknown"
        "No such file or directory" = true
    ∧ strContains (strLower "undefined reference to foo: No such file or directory for board unknown")
        "board" = true
    ∧ strContains (strLower "undefined reference to foo: No such file or directory for board unknown")
        "unknown" = true
    ∧ simplified_error_code
        "undefined reference to foo: No such file or directory for board unknown" = 2 := by
  refine ⟨by decide, by decide, by decide, by decide⟩

/-- Claim C4 as amended: the classification evaluates its patterns in a fixed
precedence with the first match winning — "undefined reference" gives 2;
otherwise "No such file or directory" or (case-insensitively) "library" with
"not found" gives 3; otherwise (case-insensitively) "board" with "unknown" or
"not found" gives 4; otherwise the default 1 — and in particular any error
text containing both "No such file or directory" and "board" plus "unknown"
*and not containing "undefined reference"* is classified 3
(MissingDependency), the dependency check preceding the board check. -/
theorem c4_classification_amended (t : String) :
    (strContains t "undefined reference" = true → simplified_error_code t = 2)
    ∧ (strContains t "undefined reference" = false →
        (strContains t "No such file or directory"
          || (strContains (strLower t) "library"
              && strContains (strLower t) "not found")) = true →
        simplified_error_code t = 3)
    ∧ (strContains t "undefined reference" = false →
        (strContains t "No such file or directory"
          || (strContains (strLower t) "library"
              && strContains (strLower t) "not found")) = false →
        (strContains (strLower t) "board"
          && (strContains (strLower t) "unknown"
              || strContains (strLower t) "not found")) = true →
        simplified_error_code t = 4)
    ∧ (strContains t "undefined reference" = false →
        (strContains t "No such file or directory"
          || (strContains (strLower t) "library"
              && strContains (strLower t) "not found")) = false →
        (strContains (strLower t) "board"
          && (strContains (strLower t) "unknown"
              || strContains (strLower t) "not found")) = false →
        simplified_error_code t = 1)
    ∧ (strContains t "undefined reference" = false →
        strContains t "No such file or directory" = true →
        strContains (strLower t) "board" = true →
        strContains (strLower t) "unknown" = true →
        simplified_error_code t = 3) := by
  refine ⟨?_, ?_, ?_, ?_, ?_⟩
  · intro h1
    unfold simplified_error_code
    rw [h1]
    simp
  · intro h1 h2
    unfold simplified_error_code
    rw [h1, h2]
    simp
  · intro h1 h2 h3
    unfold simplified_error_code
    rw [h1, h2, h3]
    simp
  · intro h1 h2 h3
    unfold simplified_error_code
    rw [h1, h2, h3]
    simp
  · intro h1 h2 h3 h4
    unfold simplified_error_code
    rw [h1, h2]
    simp

/-- Concrete instantiation of `c4_classification_amended`: the precedence
case highlighted by the specification, on a text without an
undefined-reference pattern. -/
theorem c4_classification_amended_witness :
    simplified_error_code "No such file or directory: board unknown" = 3 :=
  (c4_classification_amended "No such file or directory: board unknown").2.2.2.2
    (by decide) (by decide) (by decide) (by decide)

end ArduinoCliMcp
